import Mathlib

/-!
Shallow embedding of `shell/browser/ui/views/opaque_frame_view.cc` (class
`OpaqueFrameView`, declared in the accompanying header): the frame-geometry,
button, layout, hit-test and window-controls-overlay logic of the custom
title bar, together with theorems checking the stated properties of that
code.

Conventions of the embedding:
  - C++ `int` becomes `Int` (window geometry never approaches overflow, and
    the source performs no wrap-around arithmetic).
  - Raw pointers that may be null (`minimize_button_`, ...,
    `caption_button_placeholder_container_`) become `Option` values;
    dereferencing a null pointer is a crash, so an operation that would do
    that returns `none`.
  - Reads of external collaborators (the widget's window mode, RTL
    direction, view width, the window-controls-overlay flag, the titlebar
    overlay height override, the base `FramelessView` results) enter as
    explicit parameters.
-/

namespace Electron

/-- Window mode as read from the owning widget: `frame()->IsMaximized()` /
`frame()->IsFullscreen()`, else restored. -/
inductive WindowMode
  | Restored
  | Maximized
  | Fullscreen
deriving DecidableEq, Repr

/-- `frame()->IsMaximized()`. -/
def IsMaximized (m : WindowMode) : Bool := m == .Maximized

/-- `frame()->IsFullscreen()`. -/
def IsFullscreen (m : WindowMode) : Bool := m == .Fullscreen

/-- `gfx::Insets`. -/
structure Insets where
  top : Int
  left : Int
  bottom : Int
  right : Int
deriving DecidableEq, Repr

/-- `gfx::Insets()`: all four components zero. -/
def Insets.empty : Insets := ⟨0, 0, 0, 0⟩

/-- `gfx::Insets(v)`: the uniform insets. -/
def Insets.ofAll (v : Int) : Insets := ⟨v, v, v, v⟩

/-- `gfx::Insets::width() = left() + right()`. -/
def Insets.width (i : Insets) : Int := i.left + i.right

/-- `gfx::Rect` (origin and size). -/
structure Rect where
  x : Int
  y : Int
  w : Int
  h : Int
deriving DecidableEq, Repr

/-- `gfx::Point`. -/
structure Point where
  x : Int
  y : Int
deriving DecidableEq, Repr

/-- `gfx::Rect::Contains(point)`: inside the half-open box. -/
def Rect.Contains (r : Rect) (p : Point) : Bool :=
  decide (r.x ≤ p.x) && decide (p.x < r.x + r.w) &&
    decide (r.y ≤ p.y) && decide (p.y < r.y + r.h)

/-! Constants of OpaqueFrameViewLayout / OpaqueFrameView, from the source. -/

/-- `kContentEdgeShadowThickness = 2`. -/
def kContentEdgeShadowThickness : Int := 2

/-- `kTopFrameEdgeThickness = 2`. -/
def kTopFrameEdgeThickness : Int := 2

/-- `kSideFrameEdgeThickness = 1`. -/
def kSideFrameEdgeThickness : Int := 1

/-- `kCaptionButtonBottomPadding = 3`. -/
def kCaptionButtonBottomPadding : Int := 3

/-- `kFrameBorderThickness = 4` (header). -/
def kFrameBorderThickness : Int := 4

/-- `kNonClientExtraTopThickness = 1` (header). -/
def kNonClientExtraTopThickness : Int := 1

/-- `OpaqueFrameView::IsFrameCondensed()`:
`frame()->IsMaximized() || frame()->IsFullscreen()`. -/
def IsFrameCondensed (m : WindowMode) : Bool :=
  IsMaximized m || IsFullscreen m

/-- `OpaqueFrameView::RestoredFrameBorderInsets()`:
`gfx::Insets(kFrameBorderThickness)`. -/
def RestoredFrameBorderInsets : Insets := Insets.ofAll kFrameBorderThickness

/-- `OpaqueFrameView::FrameBorderInsets(bool restored)`. -/
def FrameBorderInsets (m : WindowMode) (restored : Bool) : Insets :=
  if !restored && IsFrameCondensed m then Insets.empty
  else RestoredFrameBorderInsets

/-- `OpaqueFrameView::NonClientExtraTopThickness()`. -/
def NonClientExtraTopThickness : Int := kNonClientExtraTopThickness

/-- `OpaqueFrameView::FrameTopBorderThickness(bool restored)`. -/
def FrameTopBorderThickness (m : WindowMode) (restored : Bool) : Int :=
  let thickness := (FrameBorderInsets m restored).top
  if (restored || !IsFrameCondensed m) && thickness > 0 then
    thickness + NonClientExtraTopThickness
  else
    thickness

/-- `OpaqueFrameView::GetIconSize()`:
`std::max(gfx::FontList().GetHeight(), kIconMinimumSize)` with
`kIconMinimumSize = 16`; the platform font line height enters as the
parameter `fontListHeight`. -/
def GetIconSize (fontListHeight : Int) : Int := max fontListHeight 16

/-- `OpaqueFrameView::NonClientTopHeight(bool restored)`. The calls
`FrameEdgeInsets(restored).top()` and `DefaultCaptionButtonY(restored)` and
the constant `kCaptionButtonHeight` are defined outside this translation
unit; their values enter as the parameters `frameEdgeTop`,
`defaultCaptionButtonY` and `captionButtonHeight`. -/
def NonClientTopHeight (frameEdgeTop defaultCaptionButtonY captionButtonHeight
    fontListHeight : Int) : Int :=
  let kVerticalPadding : Int := 2
  let icon_height := frameEdgeTop + GetIconSize fontListHeight + kVerticalPadding
  let caption_button_height :=
    defaultCaptionButtonY + captionButtonHeight + kCaptionButtonBottomPadding
  max icon_height caption_button_height + kContentEdgeShadowThickness

/-- `views::Button::ButtonState` (`STATE_COUNT` is not a state; the source's
`ButtonStateToNavButtonProviderState` marks it `NOTREACHED()`). -/
inductive ButtonState
  | Normal
  | Hovered
  | Pressed
  | Disabled
deriving DecidableEq, Repr

/-- The `ViewID`s the source assigns to the four control buttons. -/
inductive ViewID
  | MinimizeButton
  | MaximizeButton
  | RestoreButton
  | CloseButton
deriving DecidableEq, Repr

/-- A `views::ImageButton` as far as this component reads or writes it:
its id, visibility, bounds within the frame view, and visual state. -/
structure Button where
  id : ViewID
  visible : Bool
  bounds : Rect
  state : ButtonState
deriving DecidableEq, Repr

/-- `views::Button::SetState`. -/
def Button.SetState (b : Button) (s : ButtonState) : Button :=
  { b with state := s }

/-- `views::View::GetMirroredRect` (and `GetMirroredBounds` of a child of
the frame view): in a right-to-left layout the rectangle is flipped about
the vertical centerline of the view of width `viewWidth`; in a
left-to-right layout it is returned unchanged. -/
def GetMirroredRect (rtl : Bool) (viewWidth : Int) (r : Rect) : Rect :=
  if rtl then { r with x := viewWidth - r.x - r.w } else r

/-- The anonymous-namespace helper `HitTestCaptionButton(button, point)`:
`button && button->GetVisible() && button->GetMirroredBounds().Contains(point)`.
A null `button` pointer is `none`. -/
def HitTestCaptionButton (rtl : Bool) (viewWidth : Int)
    (button : Option Button) (point : Point) : Bool :=
  match button with
  | none => false
  | some b => b.visible && (GetMirroredRect rtl viewWidth b.bounds).Contains point

/-- `views::FrameButton` (the abstract button-kind tokens of the ordering
provider). -/
inductive FrameButton
  | Minimize
  | Maximize
  | Close
deriving DecidableEq, Repr

/-- The result of `OpaqueFrameView::NonClientHitTest`: one of the hit codes
the function returns itself, or whatever `FramelessView::NonClientHitTest`
returns (an opaque code of the base class). -/
inductive HitRegion
  | HTCLOSE
  | HTMAXBUTTON
  | HTMINBUTTON
  | HTCAPTION
  | frameless (code : Int)
deriving DecidableEq, Repr

/-- The `OpaqueFrameView` instance state this component owns or reads:
the stable custom-draw decision and window mode read from the owning
window, the four button pointers, the placeholder container pointer (its
bounds when it exists), the ordering lists, and the layout-cursor fields.
Every default value is the corresponding member initializer of the header
(`raw_ptr` members null-initialize; the cursor fields are `false` / `0`;
`trailing_buttons_` defaults to minimize, maximize, close). -/
structure OpaqueFrameView where
  shouldCustomDrawSystemTitlebar : Bool
  windowMode : WindowMode
  minimize_button : Option Button := none
  maximize_button : Option Button := none
  restore_button : Option Button := none
  close_button : Option Button := none
  caption_button_placeholder_container : Option Rect := none
  leading_buttons : List FrameButton := []
  trailing_buttons : List FrameButton := [.Minimize, .Maximize, .Close]
  placed_leading_button : Bool := false
  placed_trailing_button : Bool := false
  available_space_leading_x : Int := 0
  available_space_trailing_x : Int := 0
  minimum_size_for_buttons : Int := 0
deriving DecidableEq, Repr

/-- The view as constructed, before `Init` runs: every member still at its
initializer; the custom-draw decision and window mode of the owning
window are the two parameters. -/
def OpaqueFrameView.preInit (custom : Bool) (mode : WindowMode) : OpaqueFrameView :=
  { shouldCustomDrawSystemTitlebar := custom, windowMode := mode }

/-- The button `OpaqueFrameView::CreateImageButton` returns: a fresh
`views::ImageButton` (visible by default, zero bounds, `STATE_NORMAL`)
carrying the given `ViewID`. The image models, focus behavior, callback
and accessible name it also sets live outside the embedded state. -/
def CreateImageButton (view_id : ViewID) : Button :=
  { id := view_id, visible := true, bounds := ⟨0, 0, 0, 0⟩, state := .Normal }

/-- `OpaqueFrameView::InitButtons()`: creates the four buttons, in the
source's order minimize, maximize, restore, close. -/
def InitButtons (v : OpaqueFrameView) : OpaqueFrameView :=
  { v with
    minimize_button := some (CreateImageButton .MinimizeButton)
    maximize_button := some (CreateImageButton .MaximizeButton)
    restore_button := some (CreateImageButton .RestoreButton)
    close_button := some (CreateImageButton .CloseButton) }

/-- `OpaqueFrameView::Init(window, frame)`: after `FramelessView::Init`
(which only stores the window and frame references), the source returns
early when `ShouldCustomDrawSystemTitlebar()` is true; otherwise it adds
the `CaptionButtonPlaceholderContainer` child (a fresh view, zero bounds),
registers the paint-as-active callback (outside the embedded state) and
calls `InitButtons()`. -/
def Init (v : OpaqueFrameView) : OpaqueFrameView :=
  if v.shouldCustomDrawSystemTitlebar then v
  else
    InitButtons
      { v with caption_button_placeholder_container := some ⟨0, 0, 0, 0⟩ }

/-- `OpaqueFrameView::NonClientHitTest(point)`. The reads of the external
collaborators — RTL direction, the view's width,
`browser_view()->IsWindowControlsOverlayEnabled()` and the base
`FramelessView::NonClientHitTest(point)` result — enter as parameters. -/
def NonClientHitTest (v : OpaqueFrameView) (rtl : Bool) (viewWidth : Int)
    (wcoEnabled : Bool) (framelessResult : Int) (point : Point) : HitRegion :=
  if v.shouldCustomDrawSystemTitlebar then
    if HitTestCaptionButton rtl viewWidth v.close_button point then .HTCLOSE
    else if HitTestCaptionButton rtl viewWidth v.restore_button point then .HTMAXBUTTON
    else if HitTestCaptionButton rtl viewWidth v.maximize_button point then .HTMAXBUTTON
    else if HitTestCaptionButton rtl viewWidth v.minimize_button point then .HTMINBUTTON
    else if wcoEnabled &&
        (match v.caption_button_placeholder_container with
         | none => false
         | some ph => (GetMirroredRect rtl viewWidth ph).Contains point) then
      .HTCAPTION
    else .frameless framelessResult
  else .frameless framelessResult

/-- `OpaqueFrameView::ResetWindowControls()`: after the (stateless here)
`NonClientFrameView::ResetWindowControls()`, sets the restore, minimize
and maximize buttons to `STATE_NORMAL`; the close button is left alone.
The source dereferences the three pointers unconditionally, so a null
one is a crash (`none`). -/
def ResetWindowControls (v : OpaqueFrameView) : Option OpaqueFrameView :=
  match v.restore_button, v.minimize_button, v.maximize_button with
  | some rb, some mb, some xb =>
      some { v with
        restore_button := some (rb.SetState .Normal)
        minimize_button := some (mb.SetState .Normal)
        maximize_button := some (xb.SetState .Normal) }
  | _, _, _ => none

/-- `OpaqueFrameView::OnWindowButtonOrderingChange()`: wholesale replace of
the two ordering lists with the provider's current ones. -/
def OnWindowButtonOrderingChange (v : OpaqueFrameView)
    (providerLeading providerTrailing : List FrameButton) : OpaqueFrameView :=
  { v with
    leading_buttons := providerLeading
    trailing_buttons := providerTrailing }

/-- The external inputs a layout pass reads through `NonClientTopHeight`:
`FrameEdgeInsets(false).top()`, `DefaultCaptionButtonY(false)`,
`kCaptionButtonHeight` and the platform font line height. -/
structure LayoutEnv where
  frameEdgeTop : Int
  defaultCaptionButtonY : Int
  captionButtonHeight : Int
  fontListHeight : Int
deriving DecidableEq, Repr

/-- The rectangle `OpaqueFrameView::Layout` computes as the arguments of
`caption_button_placeholder_container_->SetBounds(...)`:
`(container_x, insets.top(), minimum_size_for_buttons_ - insets.width(),
height - insets.top())` with
`container_x = placed_trailing_button_ ? available_space_trailing_x_ : 0`,
`insets = FrameBorderInsets(false)` and `height = NonClientTopHeight(false)`. -/
def LayoutPlaceholderBounds (env : LayoutEnv) (v : OpaqueFrameView) : Rect :=
  let height := NonClientTopHeight env.frameEdgeTop env.defaultCaptionButtonY
    env.captionButtonHeight env.fontListHeight
  let container_x :=
    if v.placed_trailing_button then v.available_space_trailing_x else 0
  let insets := FrameBorderInsets v.windowMode false
  ⟨container_x, insets.top, v.minimum_size_for_buttons - insets.width,
    height - insets.top⟩

/-- `OpaqueFrameView::Layout(PassKey)`: when the title bar is custom-drawn,
sets the placeholder container's bounds (a null
`caption_button_placeholder_container_` is dereferenced with no check —
`none`); in every case the source then runs
`LayoutSuperclass<FramelessView>(this)`, which lays out the base view's
children and touches none of the embedded state. -/
def Layout (env : LayoutEnv) (v : OpaqueFrameView) : Option OpaqueFrameView :=
  if v.shouldCustomDrawSystemTitlebar then
    match v.caption_button_placeholder_container with
    | none => none
    | some _ =>
        some { v with
          caption_button_placeholder_container :=
            some (LayoutPlaceholderBounds env v) }
  else some v

/-- `OpaqueFrameView::LayoutWindowControlsOverlay()`: computes the bounding
rectangle and publishes it through
`window()->SetWindowControlsOverlayRect(bounding_rect)` (the published
rectangle is the returned value). `titlebar_overlay_height` is the
window's override; the placeholder container's `size()` is read with no
null check, so an absent container is a crash (`none`). -/
def LayoutWindowControlsOverlay (v : OpaqueFrameView)
    (titlebar_overlay_height : Int) (rtl : Bool) (viewWidth : Int) :
    Option Rect :=
  match v.caption_button_placeholder_container with
  | none => none
  | some ph =>
      let overlay_height :=
        if titlebar_overlay_height == 0 then
          if IsMaximized v.windowMode then ph.h else ph.h + 1
        else titlebar_overlay_height
      let overlay_width := ph.w
      let bounding_rect_width := viewWidth - overlay_width
      some (GetMirroredRect rtl viewWidth ⟨0, 0, bounding_rect_width, overlay_height⟩)

/-- One invocation of a component operation, with the external inputs that
invocation reads. `setWindowMode` models the owning window's mode changing
between calls (maximize / restore / fullscreen), which rewrites none of
the component's own members. -/
inductive Op
  | init
  | initButtons
  | onWindowButtonOrderingChange (providerLeading providerTrailing : List FrameButton)
  | resetWindowControls
  | layout (env : LayoutEnv)
  | layoutWindowControlsOverlay (titlebar_overlay_height : Int) (rtl : Bool) (viewWidth : Int)
  | nonClientHitTest (rtl : Bool) (viewWidth : Int) (wcoEnabled : Bool)
      (framelessResult : Int) (point : Point)
  | setWindowMode (m : WindowMode)

/-- The state after one operation; `none` when the operation crashes
(dereferences a null pointer). `NonClientHitTest` and
`LayoutWindowControlsOverlay` read but never write the component state. -/
def step (op : Op) (v : OpaqueFrameView) : Option OpaqueFrameView :=
  match op with
  | .init => some (Init v)
  | .initButtons => some (InitButtons v)
  | .onWindowButtonOrderingChange l t => some (OnWindowButtonOrderingChange v l t)
  | .resetWindowControls => ResetWindowControls v
  | .layout env => Layout env v
  | .layoutWindowControlsOverlay o rtl w =>
      (LayoutWindowControlsOverlay v o rtl w).map fun _ => v
  | .nonClientHitTest _ _ _ _ _ => some v
  | .setWindowMode m => some { v with windowMode := m }

/-- Run a sequence of operations, stopping at the first crash. -/
def run (ops : List Op) (v : OpaqueFrameView) : Option OpaqueFrameView :=
  match ops with
  | [] => some v
  | op :: rest => (step op v).bind (run rest)

/-- The layout-cursor members still hold their member-initializer values
(`false` / `0` in the header). -/
def CursorsAtInit (v : OpaqueFrameView) : Prop :=
  v.placed_leading_button = false ∧ v.placed_trailing_button = false ∧
    v.available_space_leading_x = 0 ∧ v.available_space_trailing_x = 0 ∧
    v.minimum_size_for_buttons = 0

instance (v : OpaqueFrameView) : Decidable (CursorsAtInit v) := by
  unfold CursorsAtInit; infer_instance

/-! The spec-side hit-test resolver (§4.4 of the spec), written from the
spec's words rather than the source, for comparison with
`NonClientHitTest`. -/

/-- A button counts as a candidate only if it is non-null, currently
visible, and its mirrored bounds contain the point. -/
def IsHitCandidate (rtl : Bool) (viewWidth : Int) (point : Point) :
    Option Button → Bool
  | none => false
  | some b => b.visible && (GetMirroredRect rtl viewWidth b.bounds).Contains point

/-- First match in a priority list of (button, region) pairs. -/
def FirstCandidate (rtl : Bool) (viewWidth : Int) (point : Point) :
    List (Option Button × HitRegion) → Option HitRegion
  | [] => none
  | (ob, r) :: rest =>
      if IsHitCandidate rtl viewWidth point ob then some r
      else FirstCandidate rtl viewWidth point rest

/-- The resolver as the spec words it: the buttons in the fixed priority
order close → Close, restore → MaxButton, maximize → MaxButton,
minimize → MinButton, the first candidate winning; then, if
window-controls-overlay is enabled and the placeholder container exists
and its mirrored bounds contain the point, Caption; else the base-class
result. -/
def SpecHitTestResolve (v : OpaqueFrameView) (rtl : Bool) (viewWidth : Int)
    (wcoEnabled : Bool) (framelessResult : Int) (point : Point) : HitRegion :=
  match FirstCandidate rtl viewWidth point
      [(v.close_button, .HTCLOSE), (v.restore_button, .HTMAXBUTTON),
        (v.maximize_button, .HTMAXBUTTON), (v.minimize_button, .HTMINBUTTON)] with
  | some r => r
  | none =>
      if wcoEnabled && v.caption_button_placeholder_container.any
          (fun ph => (GetMirroredRect rtl viewWidth ph).Contains point) then
        .HTCAPTION
      else .frameless framelessResult

/-! Theorems. -/

/-- C5: for every `WindowMode`, `FrameBorderInsets(true)` equals the fixed
restored-border insets — uniform `kFrameBorderThickness = 4` on all four
sides — independent of mode, and `FrameBorderInsets(false)` equals zero
insets if and only if the mode is Maximized or Fullscreen (the condensed
predicate). -/
theorem frameBorderInsets_constant_and_zero_iff_condensed (m : WindowMode) :
    FrameBorderInsets m true = Insets.ofAll kFrameBorderThickness ∧
    FrameBorderInsets m true = ⟨4, 4, 4, 4⟩ ∧
    (FrameBorderInsets m false = Insets.empty ↔
      (m = WindowMode.Maximized ∨ m = WindowMode.Fullscreen)) := by
  cases m <;> decide

/-- C9: for every `WindowMode` and restored flag, `FrameTopBorderThickness`
is the top inset of `FrameBorderInsets` plus `kNonClientExtraTopThickness
= 1` exactly when the frame is effectively restored (the flag is set or
the frame is not condensed) and that top inset is nonzero; in particular
it is `0` when not restored and condensed, and `5` whenever restored. -/
theorem frameTopBorderThickness_spec (m : WindowMode) (restored : Bool) :
    (FrameTopBorderThickness m restored =
      (FrameBorderInsets m restored).top +
        (if (restored = true ∨ IsFrameCondensed m = false) ∧
            (FrameBorderInsets m restored).top ≠ 0 then
          kNonClientExtraTopThickness
        else 0)) ∧
    FrameTopBorderThickness m false = (if IsFrameCondensed m = true then 0 else 5) ∧
    FrameTopBorderThickness m true = 5 := by
  cases m <;> cases restored <;> decide

/-- C10: `NonClientTopHeight` is monotonically non-decreasing in the icon
height (`GetIconSize`, itself `max(font line height, 16)` and monotone in
the font height) and in the caption button height, and a repeated call
with unchanged inputs returns the same value. -/
theorem nonClientTopHeight_monotone_idempotent
    (e y c₁ c₂ f₁ f₂ : Int) (hc : c₁ ≤ c₂) (hf : f₁ ≤ f₂) :
    GetIconSize f₁ ≤ GetIconSize f₂ ∧
    NonClientTopHeight e y c₁ f₁ ≤ NonClientTopHeight e y c₂ f₂ ∧
    NonClientTopHeight e y c₁ f₁ = NonClientTopHeight e y c₁ f₁ := by
  refine ⟨max_le_max hf le_rfl, ?_, rfl⟩
  simp only [NonClientTopHeight, GetIconSize]
  have h1 : e + max f₁ 16 + 2 ≤ e + max f₂ 16 + 2 :=
    add_le_add_right (add_le_add_left (max_le_max hf le_rfl) e) 2
  have h2 : y + c₁ + kCaptionButtonBottomPadding ≤
      y + c₂ + kCaptionButtonBottomPadding :=
    add_le_add_right (add_le_add_left hc y) kCaptionButtonBottomPadding
  exact add_le_add_right (max_le_max h1 h2) kContentEdgeShadowThickness

/-- Witness for C10: concrete monotone instance (font height 10 vs 20,
caption button height 17 vs 18). -/
theorem nonClientTopHeight_monotone_witness :
    GetIconSize 10 ≤ GetIconSize 20 ∧
    NonClientTopHeight 2 0 17 10 ≤ NonClientTopHeight 2 0 18 20 ∧
    NonClientTopHeight 2 0 17 10 = NonClientTopHeight 2 0 17 10 :=
  nonClientTopHeight_monotone_idempotent 2 0 17 18 10 20 (by decide) (by decide)

/-- C2 (code evaluated at the failing input): after `Init`, the four
control buttons exist if and only if the title bar is NOT custom-drawn —
the source's `Init` returns before `InitButtons()` exactly when
`ShouldCustomDrawSystemTitlebar()` is true, the opposite of the claim's
"exist if and only if the title bar is custom-drawn". -/
theorem init_constructs_buttons_iff_not_custom (custom : Bool) (mode : WindowMode) :
    (((Init (OpaqueFrameView.preInit custom mode)).minimize_button ≠ none ∧
      (Init (OpaqueFrameView.preInit custom mode)).maximize_button ≠ none ∧
      (Init (OpaqueFrameView.preInit custom mode)).restore_button ≠ none ∧
      (Init (OpaqueFrameView.preInit custom mode)).close_button ≠ none) ↔
      custom = false) := by
  cases custom <;> cases mode <;> decide

/-- C1 (code evaluated at the failing input): after `Init` on a window
whose title bar is custom-drawn the placeholder container was never
created, yet `Layout` takes its custom-draw branch and dereferences the
null `caption_button_placeholder_container_` (crash, `none`) instead of
passing to the base layout, and `LayoutWindowControlsOverlay` reads the
null container's size (crash, `none`). -/
theorem layout_dereferences_absent_placeholder (mode : WindowMode)
    (env : LayoutEnv) (o : Int) (rtl : Bool) (w : Int) :
    (Init (OpaqueFrameView.preInit true mode)).caption_button_placeholder_container
        = none ∧
    Layout env (Init (OpaqueFrameView.preInit true mode)) = none ∧
    LayoutWindowControlsOverlay (Init (OpaqueFrameView.preInit true mode)) o rtl w
        = none := by
  simp [Init, OpaqueFrameView.preInit, Layout, LayoutWindowControlsOverlay]

/-- C3: for every point, a view initialized via `Init` with a custom-drawn
title bar has all four button pointers and the placeholder pointer null
(`Init` returned before creating them), every one of the five priority
checks fails, and `NonClientHitTest` returns exactly the base
`FramelessView` hit-test result. -/
theorem nonClientHitTest_after_custom_init_is_base (mode : WindowMode)
    (rtl : Bool) (viewWidth : Int) (wcoEnabled : Bool) (framelessResult : Int)
    (point : Point) :
    (Init (OpaqueFrameView.preInit true mode)).minimize_button = none ∧
    (Init (OpaqueFrameView.preInit true mode)).maximize_button = none ∧
    (Init (OpaqueFrameView.preInit true mode)).restore_button = none ∧
    (Init (OpaqueFrameView.preInit true mode)).close_button = none ∧
    (Init (OpaqueFrameView.preInit true mode)).caption_button_placeholder_container
        = none ∧
    NonClientHitTest (Init (OpaqueFrameView.preInit true mode)) rtl viewWidth
        wcoEnabled framelessResult point = HitRegion.frameless framelessResult := by
  simp [Init, OpaqueFrameView.preInit, NonClientHitTest, HitTestCaptionButton]

/-- C4: whenever the title bar is custom-drawn, `NonClientHitTest` returns
exactly what the spec's first-match priority resolver
(`SpecHitTestResolve`: close → HTCLOSE, restore → HTMAXBUTTON, maximize →
HTMAXBUTTON, minimize → HTMINBUTTON, then the caption-overlay check, else
the base result; a button is a candidate only if non-null, visible, and
its mirrored bounds contain the point) returns, for every point and every
configuration of button rectangles. -/
theorem nonClientHitTest_eq_spec_priority (v : OpaqueFrameView) (rtl : Bool)
    (viewWidth : Int) (wcoEnabled : Bool) (framelessResult : Int) (point : Point)
    (hcustom : v.shouldCustomDrawSystemTitlebar = true) :
    NonClientHitTest v rtl viewWidth wcoEnabled framelessResult point =
      SpecHitTestResolve v rtl viewWidth wcoEnabled framelessResult point := by
  have hcand : ∀ ob : Option Button,
      IsHitCandidate rtl viewWidth point ob =
        HitTestCaptionButton rtl viewWidth ob point := by
    intro ob; cases ob <;> rfl
  simp only [NonClientHitTest, SpecHitTestResolve, FirstCandidate, hcand,
    hcustom, if_true, Option.any]
  cases hcl : HitTestCaptionButton rtl viewWidth v.close_button point <;>
    cases hre : HitTestCaptionButton rtl viewWidth v.restore_button point <;>
      cases hma : HitTestCaptionButton rtl viewWidth v.maximize_button point <;>
        cases hmi : HitTestCaptionButton rtl viewWidth v.minimize_button point <;>
          cases hph : v.caption_button_placeholder_container <;>
            simp [hcl, hre, hma, hmi, hph]

/-- Witness for C4: a concrete custom-drawn view whose close and restore
rectangles overlap at the probed point; both sides resolve it. -/
theorem nonClientHitTest_eq_spec_priority_witness :
    NonClientHitTest
        { shouldCustomDrawSystemTitlebar := true
          windowMode := WindowMode.Maximized
          close_button := some ⟨ViewID.CloseButton, true, ⟨0, 0, 30, 30⟩, ButtonState.Normal⟩
          restore_button := some ⟨ViewID.RestoreButton, true, ⟨0, 0, 30, 30⟩, ButtonState.Normal⟩ }
        false 800 true 7 ⟨5, 5⟩ =
      SpecHitTestResolve
        { shouldCustomDrawSystemTitlebar := true
          windowMode := WindowMode.Maximized
          close_button := some ⟨ViewID.CloseButton, true, ⟨0, 0, 30, 30⟩, ButtonState.Normal⟩
          restore_button := some ⟨ViewID.RestoreButton, true, ⟨0, 0, 30, 30⟩, ButtonState.Normal⟩ }
        false 800 true 7 ⟨5, 5⟩ :=
  nonClientHitTest_eq_spec_priority
    { shouldCustomDrawSystemTitlebar := true
      windowMode := WindowMode.Maximized
      close_button := some ⟨ViewID.CloseButton, true, ⟨0, 0, 30, 30⟩, ButtonState.Normal⟩
      restore_button := some ⟨ViewID.RestoreButton, true, ⟨0, 0, 30, 30⟩, ButtonState.Normal⟩ }
    false 800 true 7 ⟨5, 5⟩ rfl

/-- C6: for every view width, placeholder size and window mode, with a zero
titlebar-overlay-height override `LayoutWindowControlsOverlay` publishes
the mirror-for-RTL of the rectangle with origin (0,0), width = view width
minus placeholder width, and height = placeholder height + 1 when not
maximized and exactly the placeholder height when maximized; a nonzero
override is used as the height instead. -/
theorem layoutWindowControlsOverlay_rect (v : OpaqueFrameView) (ph : Rect)
    (rtl : Bool) (viewWidth : Int) (override_height : Int)
    (hph : v.caption_button_placeholder_container = some ph)
    (hov : override_height ≠ 0) :
    LayoutWindowControlsOverlay v 0 rtl viewWidth =
      some (GetMirroredRect rtl viewWidth
        ⟨0, 0, viewWidth - ph.w,
          if IsMaximized v.windowMode then ph.h else ph.h + 1⟩) ∧
    LayoutWindowControlsOverlay v override_height rtl viewWidth =
      some (GetMirroredRect rtl viewWidth ⟨0, 0, viewWidth - ph.w, override_height⟩) := by
  constructor
  · simp [LayoutWindowControlsOverlay, hph]
  · simp [LayoutWindowControlsOverlay, hph, hov]

/-- Witness for C6: view width 800 and a 138×30 placeholder on a
non-maximized window publish (0,0,662,31) when the override is zero, and
the override height 40 when it is nonzero. -/
theorem layoutWindowControlsOverlay_rect_witness :
    LayoutWindowControlsOverlay
        { shouldCustomDrawSystemTitlebar := false
          windowMode := WindowMode.Restored
          caption_button_placeholder_container := some ⟨0, 0, 138, 30⟩ }
        0 false 800 = some ⟨0, 0, 662, 31⟩ ∧
    LayoutWindowControlsOverlay
        { shouldCustomDrawSystemTitlebar := false
          windowMode := WindowMode.Restored
          caption_button_placeholder_container := some ⟨0, 0, 138, 30⟩ }
        40 false 800 = some ⟨0, 0, 662, 40⟩ :=
  layoutWindowControlsOverlay_rect
    { shouldCustomDrawSystemTitlebar := false
      windowMode := WindowMode.Restored
      caption_button_placeholder_container := some ⟨0, 0, 138, 30⟩ }
    ⟨0, 0, 138, 30⟩ false 800 40 rfl (by decide)

/-- C7: for every prior combination of the four buttons' visual states,
`ResetWindowControls` sets the minimize, maximize and restore buttons to
the normal state, leaves the close button's state (and every other
member) unchanged, and the close button of the result still holds its
prior state. -/
theorem resetWindowControls_spares_close (v : OpaqueFrameView)
    (rb mb xb cb : Button)
    (hr : v.restore_button = some rb) (hm : v.minimize_button = some mb)
    (hx : v.maximize_button = some xb) (hc : v.close_button = some cb) :
    ResetWindowControls v =
      some { v with
        restore_button := some (rb.SetState ButtonState.Normal)
        minimize_button := some (mb.SetState ButtonState.Normal)
        maximize_button := some (xb.SetState ButtonState.Normal) } ∧
    ({ v with
        restore_button := some (rb.SetState ButtonState.Normal)
        minimize_button := some (mb.SetState ButtonState.Normal)
        maximize_button := some (xb.SetState ButtonState.Normal) } :
      OpaqueFrameView).close_button = some cb := by
  refine ⟨?_, hc⟩
  simp [ResetWindowControls, hr, hm, hx]

/-- Witness for C7: all four buttons hovered; after the reset, close alone
remains hovered and the other three are normal. -/
theorem resetWindowControls_spares_close_witness :
    ResetWindowControls
        { shouldCustomDrawSystemTitlebar := false
          windowMode := WindowMode.Restored
          minimize_button := some ⟨ViewID.MinimizeButton, true, ⟨0, 0, 10, 10⟩, ButtonState.Hovered⟩
          maximize_button := some ⟨ViewID.MaximizeButton, true, ⟨10, 0, 10, 10⟩, ButtonState.Hovered⟩
          restore_button := some ⟨ViewID.RestoreButton, true, ⟨20, 0, 10, 10⟩, ButtonState.Hovered⟩
          close_button := some ⟨ViewID.CloseButton, true, ⟨30, 0, 10, 10⟩, ButtonState.Hovered⟩ } =
      some
        { shouldCustomDrawSystemTitlebar := false
          windowMode := WindowMode.Restored
          minimize_button := some ⟨ViewID.MinimizeButton, true, ⟨0, 0, 10, 10⟩, ButtonState.Normal⟩
          maximize_button := some ⟨ViewID.MaximizeButton, true, ⟨10, 0, 10, 10⟩, ButtonState.Normal⟩
          restore_button := some ⟨ViewID.RestoreButton, true, ⟨20, 0, 10, 10⟩, ButtonState.Normal⟩
          close_button := some ⟨ViewID.CloseButton, true, ⟨30, 0, 10, 10⟩, ButtonState.Hovered⟩ } ∧
    ({ shouldCustomDrawSystemTitlebar := false
       windowMode := WindowMode.Restored
       minimize_button := some ⟨ViewID.MinimizeButton, true, ⟨0, 0, 10, 10⟩, ButtonState.Normal⟩
       maximize_button := some ⟨ViewID.MaximizeButton, true, ⟨10, 0, 10, 10⟩, ButtonState.Normal⟩
       restore_button := some ⟨ViewID.RestoreButton, true, ⟨20, 0, 10, 10⟩, ButtonState.Normal⟩
       close_button := some ⟨ViewID.CloseButton, true, ⟨30, 0, 10, 10⟩, ButtonState.Hovered⟩ } :
      OpaqueFrameView).close_button =
        some ⟨ViewID.CloseButton, true, ⟨30, 0, 10, 10⟩, ButtonState.Hovered⟩ :=
  resetWindowControls_spares_close
    { shouldCustomDrawSystemTitlebar := false
      windowMode := WindowMode.Restored
      minimize_button := some ⟨ViewID.MinimizeButton, true, ⟨0, 0, 10, 10⟩, ButtonState.Hovered⟩
      maximize_button := some ⟨ViewID.MaximizeButton, true, ⟨10, 0, 10, 10⟩, ButtonState.Hovered⟩
      restore_button := some ⟨ViewID.RestoreButton, true, ⟨20, 0, 10, 10⟩, ButtonState.Hovered⟩
      close_button := some ⟨ViewID.CloseButton, true, ⟨30, 0, 10, 10⟩, ButtonState.Hovered⟩ }
    ⟨ViewID.RestoreButton, true, ⟨20, 0, 10, 10⟩, ButtonState.Hovered⟩
    ⟨ViewID.MinimizeButton, true, ⟨0, 0, 10, 10⟩, ButtonState.Hovered⟩
    ⟨ViewID.MaximizeButton, true, ⟨10, 0, 10, 10⟩, ButtonState.Hovered⟩
    ⟨ViewID.CloseButton, true, ⟨30, 0, 10, 10⟩, ButtonState.Hovered⟩
    rfl rfl rfl rfl

/-- Helper: no single operation writes the layout-cursor members. -/
theorem cursors_step {op : Op} {v v' : OpaqueFrameView}
    (hv : CursorsAtInit v) (h : step op v = some v') : CursorsAtInit v' := by
  obtain ⟨h1, h2, h3, h4, h5⟩ := hv
  cases op with
  | init =>
      simp only [step, Option.some.injEq] at h
      subst h
      unfold Init
      split
      · exact ⟨h1, h2, h3, h4, h5⟩
      · exact ⟨h1, h2, h3, h4, h5⟩
  | initButtons =>
      simp only [step, Option.some.injEq] at h
      subst h
      exact ⟨h1, h2, h3, h4, h5⟩
  | onWindowButtonOrderingChange l t =>
      simp only [step, Option.some.injEq] at h
      subst h
      exact ⟨h1, h2, h3, h4, h5⟩
  | resetWindowControls =>
      simp only [step, ResetWindowControls] at h
      split at h
      · simp only [Option.some.injEq] at h
        subst h
        exact ⟨h1, h2, h3, h4, h5⟩
      · exact absurd h (by simp)
  | layout env =>
      simp only [step, Layout] at h
      split at h
      · split at h
        · exact absurd h (by simp)
        · simp only [Option.some.injEq] at h
          subst h
          exact ⟨h1, h2, h3, h4, h5⟩
      · simp only [Option.some.injEq] at h
        subst h
        exact ⟨h1, h2, h3, h4, h5⟩
  | layoutWindowControlsOverlay o rtl w =>
      simp only [step, Option.map_eq_some'] at h
      obtain ⟨_, _, h⟩ := h
      subst h
      exact ⟨h1, h2, h3, h4, h5⟩
  | nonClientHitTest rtl w wco fr p =>
      simp only [step, Option.some.injEq] at h
      subst h
      exact ⟨h1, h2, h3, h4, h5⟩
  | setWindowMode m =>
      simp only [step, Option.some.injEq] at h
      subst h
      exact ⟨h1, h2, h3, h4, h5⟩

/-- Helper: no sequence of operations writes the layout-cursor members. -/
theorem cursors_run {ops : List Op} {v v' : OpaqueFrameView}
    (hv : CursorsAtInit v) (h : run ops v = some v') : CursorsAtInit v' := by
  induction ops generalizing v with
  | nil =>
      simp only [run, Option.some.injEq] at h
      subst h
      exact hv
  | cons op rest ih =>
      simp only [run] at h
      obtain ⟨w, hw, hrest⟩ := Option.bind_eq_some.mp h
      exact ih (cursors_step hv hw) hrest

/-- Helper: with the cursors at their member-initializer values, the
placeholder rectangle a layout pass computes anchors at 0 and has width
`0 - insets.width()`. -/
theorem layoutPlaceholderBounds_of_cursors (env : LayoutEnv)
    (v : OpaqueFrameView) (hv : CursorsAtInit v) :
    LayoutPlaceholderBounds env v =
      ⟨0, (FrameBorderInsets v.windowMode false).top,
        0 - (FrameBorderInsets v.windowMode false).width,
        NonClientTopHeight env.frameEdgeTop env.defaultCaptionButtonY
            env.captionButtonHeight env.fontListHeight -
          (FrameBorderInsets v.windowMode false).top⟩ := by
  obtain ⟨h1, h2, h3, h4, h5⟩ := hv
  simp [LayoutPlaceholderBounds, h2, h5]

/-- C8: starting from the freshly constructed view, no sequence of the
component's operations ever writes the layout-cursor members
(`placed_leading_button_`, `placed_trailing_button_`,
`available_space_leading_x_`, `available_space_trailing_x_`,
`minimum_size_for_buttons_`) after their false/zero member
initialization; consequently the placeholder rectangle every layout pass
computes is anchored at x = 0, y = the top frame border inset, with width
`0 - FrameBorderInsets(false).width()` and height
`NonClientTopHeight(false) - FrameBorderInsets(false).top()`. -/
theorem layout_cursors_never_written (custom : Bool) (mode : WindowMode)
    (ops : List Op) (v' : OpaqueFrameView) (env : LayoutEnv)
    (h : run ops (OpaqueFrameView.preInit custom mode) = some v') :
    CursorsAtInit v' ∧
    LayoutPlaceholderBounds env v' =
      ⟨0, (FrameBorderInsets v'.windowMode false).top,
        0 - (FrameBorderInsets v'.windowMode false).width,
        NonClientTopHeight env.frameEdgeTop env.defaultCaptionButtonY
            env.captionButtonHeight env.fontListHeight -
          (FrameBorderInsets v'.windowMode false).top⟩ :=
  have hc : CursorsAtInit v' := cursors_run ⟨rfl, rfl, rfl, rfl, rfl⟩ h
  ⟨hc, layoutPlaceholderBounds_of_cursors env v' hc⟩

/-- A concrete operation sequence: initialize, take an ordering change,
run a layout pass, reset the controls, then maximize. -/
def opsC8 : List Op :=
  [Op.init,
    Op.onWindowButtonOrderingChange [FrameButton.Close]
      [FrameButton.Minimize, FrameButton.Maximize],
    Op.layout ⟨2, 0, 17, 10⟩,
    Op.resetWindowControls,
    Op.setWindowMode WindowMode.Maximized]

/-- The layout inputs of the concrete run. -/
def envC8 : LayoutEnv := ⟨2, 0, 17, 10⟩

/-- The state `opsC8` reaches from the freshly constructed view. -/
def vC8 : OpaqueFrameView :=
  { shouldCustomDrawSystemTitlebar := false
    windowMode := WindowMode.Maximized
    minimize_button := some (CreateImageButton ViewID.MinimizeButton)
    maximize_button := some (CreateImageButton ViewID.MaximizeButton)
    restore_button := some (CreateImageButton ViewID.RestoreButton)
    close_button := some (CreateImageButton ViewID.CloseButton)
    caption_button_placeholder_container := some ⟨0, 0, 0, 0⟩
    leading_buttons := [FrameButton.Close]
    trailing_buttons := [FrameButton.Minimize, FrameButton.Maximize] }

/-- Witness for C8: after the concrete run `opsC8` the cursors still hold
their member-initializer values and the computed placeholder rectangle is
(0, 0, 0, 22) (maximized, so the border insets are zero, and
`NonClientTopHeight` of the run's inputs is 22). -/
theorem layout_cursors_never_written_witness :
    CursorsAtInit vC8 ∧ LayoutPlaceholderBounds envC8 vC8 = ⟨0, 0, 0, 22⟩ :=
  layout_cursors_never_written false WindowMode.Restored opsC8 vC8 envC8 (by decide)

end Electron
